import Mathlib

/-!
Verification of the Relay email-header subsystem
(src/emails/headerregistry.py) against its specification.

The module under verification extends the Python standard library
email.headerregistry with:
  - RelayMessageIDHeader: a resilient Message-ID parser that catches the
    known IndexError crash of the grammar engine on certain malformed
    values and substitutes an unstructured fallback parse, and
  - RelayHeaderRegistry: a registry whose call operation attaches an
    independently computed unstructured view to every constructed header.

The grammar engine (email._header_value_parser with its functions
get_unstructured and parse_message_id, the token classes MessageID and
InvalidMessageID, and the class machinery of email.headerregistry such as
BaseHeader, UnstructuredHeader, MessageIDHeader and HeaderRegistry) is an
external collaborator: its behaviour is modelled here, faithful to the
specification text, while the two Relay classes and the module-level
relay_header_factory are translated directly from the source.

Exceptions are embedded as Except results: a Python function that can
raise is a Lean function into Except PyError; a try/except block is a
match on the outcome of the guarded call.
-/

/-- A single quote character, used to build defect messages without a
literal quote character in the source text. -/
def singleQuote : String := "\x27"

/-- A recorded grammar violation: email.errors defect objects, reduced to
their class name and message. -/
structure Defect where
  kind : String
  message : String
deriving DecidableEq, Repr

/-- The fragment of the grammar-engine token (parse tree) hierarchy that
the Relay module manipulates: unstructured text tokens, valid message-id
tokens, and the invalid-message-id wrapper node. Terminal content of a
token list is flattened to its rendered text, and each node carries its
own defect list. -/
inductive ParseTree where
  | unstructured (text : String) (defects : List Defect)
  | msgId (text : String) (defects : List Defect)
  | invalidMsgId (inner : ParseTree) (defects : List Defect)
deriving DecidableEq, Repr

/-- The token_type tag of a tree node, as in the Python token classes:
the fallback wrapper InvalidMessageID is tagged invalid-message-id while
a genuine MessageID is tagged message-id. -/
def ParseTree.token_type : ParseTree → String
  | .unstructured _ _ => "unstructured"
  | .msgId _ _ => "message-id"
  | .invalidMsgId _ _ => "invalid-message-id"

/-- The str() rendering of a token list: the concatenation of the
rendering of its children. Defects are not rendered. -/
def ParseTree.render : ParseTree → String
  | .unstructured text _ => text
  | .msgId text _ => text
  | .invalidMsgId inner _ => inner.render

/-- The all_defects property of a token list: its own defects followed by
the accumulated defects of its children. -/
def ParseTree.all_defects : ParseTree → List Defect
  | .unstructured _ defects => defects
  | .msgId _ defects => defects
  | .invalidMsgId inner defects => defects ++ inner.all_defects

/-- A Python exception escaping a parse call: the IndexError of the known
grammar-engine crash, or any other exception class with its message. -/
inductive PyError where
  | indexError
  | other (name : String) (message : String)
deriving DecidableEq, Repr

/-- The grammar engine boundary: the unstructured parser, which accepts
any input (it is total by type), and the message-id parser, which may
escape with an exception. The Relay classes are verified over every
engine; the concrete modelled engine is stdlib_engine below. -/
structure GrammarEngine where
  get_unstructured : String → ParseTree
  parse_message_id : String → Except PyError ParseTree

/-- The kwds accumulator dictionary that BaseHeader passes to the parse
classmethod: defects starts as the empty list, parse_tree and decoded are
absent until the parse sets them. -/
structure Kwds where
  parse_tree : Option ParseTree
  decoded : Option String
  defects : List Defect
deriving DecidableEq, Repr

/-- A parser class, reduced to its parse classmethod: it receives the raw
value and the kwds accumulator and populates the accumulator, or raises. -/
def ParserClass := GrammarEngine → String → Kwds → Except PyError Kwds

/-- Lowercase an ASCII letter, as the lower method of Python str does on
the ASCII range of header names. -/
def lower_char (c : Char) : Char :=
  if 65 ≤ c.toNat && c.toNat ≤ 90 then Char.ofNat (c.toNat + 32) else c

/-- Lowercase a header name, as the lower method of Python str. Header
names are ASCII, so the ASCII range suffices. -/
def str_lower (s : String) : String :=
  String.mk (s.toList.map lower_char)

/-- Check for surrogate code points, as email.utils has_surrogates. A Lean
Char is always a valid scalar value, so this is false on every string of
the model; the branch is kept to mirror the source of BaseHeader. -/
def _has_surrogates (s : String) : Bool :=
  s.toList.any (fun c => 0xD800 ≤ c.toNat && c.toNat ≤ 0xDFFF)

/-- Replace surrogate code points, as email.utils sanitize does for the
decoded string. -/
def _sanitize (s : String) : String :=
  String.mk (s.toList.map (fun c =>
    if 0xD800 ≤ c.toNat && c.toNat ≤ 0xDFFF then Char.ofNat 0xFFFD else c))

/-- The data held by a constructed header instance: BaseHeader is a str
subclass equal to the decoded string, and its init stores the name, the
parse tree and the defect list. -/
structure BaseHeaderData where
  name : String
  decoded : String
  parse_tree : ParseTree
  defects : List Defect
deriving DecidableEq, Repr

/-- The instance returned by the Relay registry: the base header data plus
the attached as_unstructured view, itself a constructed header. -/
structure HeaderInstance extends BaseHeaderData where
  as_unstructured : BaseHeaderData
deriving DecidableEq, Repr

/-- BaseHeader construction: initialise kwds with an empty defect list,
run the parse classmethod of the resolved class, sanitize the decoded
string if it holds surrogates, and build the instance from the decoded
string, the name, the parse tree and the defects. A parse that did not
set decoded or parse_tree is a KeyError or TypeError in the source and is
an error outcome here. -/
def BaseHeader.new (parse : ParserClass) (engine : GrammarEngine)
    (name value : String) : Except PyError BaseHeaderData :=
  match parse engine value { parse_tree := none, decoded := none, defects := [] } with
  | .error e => .error e
  | .ok kwds =>
    match kwds.decoded with
    | none => .error (.other "KeyError" "decoded")
    | some d =>
      let decoded := if _has_surrogates d then _sanitize d else d
      match kwds.parse_tree with
      | none => .error (.other "TypeError" "parse_tree")
      | some t =>
        .ok { name := name, decoded := decoded, parse_tree := t, defects := kwds.defects }

/-- UnstructuredHeader.parse: run the unstructured grammar on the value,
set parse_tree to the resulting token and decoded to its rendering. It
never raises and leaves the defect list of kwds unchanged. -/
def UnstructuredHeader.parse : ParserClass := fun engine value kwds =>
  let t := engine.get_unstructured value
  .ok { kwds with parse_tree := some t, decoded := some t.render }

/-- MessageIDHeader.parse of the standard library: run parse_message_id,
set parse_tree and decoded, and extend the defect list with all defects
accumulated in the tree. An exception of the engine propagates. -/
def MessageIDHeader.parse : ParserClass := fun engine value kwds =>
  match engine.parse_message_id value with
  | .error e => .error e
  | .ok parse_tree =>
    .ok { kwds with
          parse_tree := some parse_tree,
          decoded := some parse_tree.render,
          defects := kwds.defects ++ parse_tree.all_defects }

/-- The defect recorded by the Relay fallback path, built exactly as the
f-string of the source: IndexError for invalid msg-id in, followed by the
raw value between single quotes. -/
def crash_fallback_defect (value : String) : Defect :=
  { kind := "InvalidHeaderDefect",
    message := "IndexError for invalid msg-id in " ++ singleQuote ++ value ++ singleQuote }

/-- RelayMessageIDHeader.parse, translated from the source: try the
engine msg-id parser; on success adopt its tree; on IndexError run the
unstructured parser on the same value, wrap the token in an
InvalidMessageID node, append the crash defect to that node, and use it
as the tree. Any other exception propagates. Afterwards set parse_tree,
set decoded to the rendering of the tree, and extend the defect list with
all defects of the tree. -/
def RelayMessageIDHeader.parse : ParserClass := fun engine value kwds =>
  match engine.parse_message_id value with
  | .ok parse_tree =>
    .ok { kwds with
          parse_tree := some parse_tree,
          decoded := some parse_tree.render,
          defects := kwds.defects ++ parse_tree.all_defects }
  | .error .indexError =>
    let token := engine.get_unstructured value
    let message_id := ParseTree.invalidMsgId token [crash_fallback_defect value]
    .ok { kwds with
          parse_tree := some message_id,
          decoded := some message_id.render,
          defects := kwds.defects ++ message_id.all_defects }
  | .error e => .error e

/-- A header registry: the name-to-class mapping (an association list
whose keys are lowercase; an overwrite of a key is a prepend, so lookup
sees the latest binding) and the default class for unregistered names. -/
structure HeaderRegistry where
  registry : List (String × ParserClass)
  default_class : ParserClass

/-- Registry lookup, as HeaderRegistry getitem: the class registered for
the lowercased name, or the default class. The dynamic subclass built
there combines the looked-up parse with BaseHeader construction, which
BaseHeader.new applies. -/
def HeaderRegistry.getitem (r : HeaderRegistry) (name : String) : ParserClass :=
  match r.registry.find? (fun p => p.1 == str_lower name) with
  | some p => p.2
  | none => r.default_class

/-- HeaderRegistry.map_to_type: register a class for the lowercased name,
overwriting any prior association. -/
def HeaderRegistry.map_to_type (r : HeaderRegistry) (name : String)
    (cls : ParserClass) : HeaderRegistry :=
  { r with registry := (str_lower name, cls) :: r.registry }

/-- HeaderRegistry call of the standard library: resolve the class for
the name and construct the header instance from name and value. -/
def PythonHeaderRegistry.call (engine : GrammarEngine) (r : HeaderRegistry)
    (name value : String) : Except PyError BaseHeaderData :=
  BaseHeader.new (r.getitem name) engine name value

/-- RelayHeaderRegistry call, translated from the source: build the base
instance through the parent call, then build a second instance for the
same name and value with the unstructured parser (the ad hoc class mixing
UnstructuredHeader with the base class) and attach it as the
as_unstructured view of the returned instance. -/
def RelayHeaderRegistry.call (engine : GrammarEngine) (r : HeaderRegistry)
    (name value : String) : Except PyError HeaderInstance :=
  match PythonHeaderRegistry.call engine r name value with
  | .error e => .error e
  | .ok header_instance =>
    match BaseHeader.new UnstructuredHeader.parse engine name value with
    | .error e => .error e
    | .ok as_unstructured =>
      .ok { toBaseHeaderData := header_instance, as_unstructured := as_unstructured }

/-- Modelled from the spec: the fragment of the default header map of the
standard library registry that the modelled engine supports. The names of
the unstructured family resolve to the unstructured parser (the Unique
variants inherit parse unchanged) and message-id resolves to the plain
MessageIDHeader; the date, address and MIME families are outside the
modelled grammar fragment and are not consulted by any verified claim. -/
def _default_header_map : List (String × ParserClass) :=
  [("subject", UnstructuredHeader.parse),
   ("comments", UnstructuredHeader.parse),
   ("message-id", MessageIDHeader.parse)]

/-- The module-level registry of the source: a RelayHeaderRegistry built
with the default map, whose message-id entry is then overwritten with
RelayMessageIDHeader. The overwrite is the prepended binding. -/
def relay_header_factory : HeaderRegistry :=
  { registry := ("message-id", RelayMessageIDHeader.parse) :: _default_header_map,
    default_class := UnstructuredHeader.parse }

/-- Modelled from the spec: membership of the known crash class of the
grammar engine msg-id parser, an angle-bracket value opening a comment
token that never closes, such as the value consisting of a less-than
sign, the letter a, an opening parenthesis and the letter b. On such
values the engine indexes past the end of the malformed token stream and
escapes with an IndexError. -/
def msg_id_crashes (value : String) : Bool :=
  match value.toList with
  | c :: rest => c == '<' && rest.contains '(' && !rest.contains ')'
  | [] => false

/-- Characters admitted in the dot-atom sides of a modelled msg-id. -/
def id_atom_char (c : Char) : Bool :=
  c.isAlphanum || c == '.' || c == '-' || c == '_'

/-- A nonempty dot-atom side of a msg-id in the modelled grammar. -/
def id_atom_ok (cs : List Char) : Bool :=
  !cs.isEmpty && cs.all id_atom_char

/-- Modelled from the spec: syntactic validity of a msg-id for the
modelled grammar engine, an angle-bracket pair enclosing id-left, a
commercial at and id-right. -/
def valid_msg_id (value : String) : Bool :=
  match value.toList with
  | c :: rest =>
    c == '<' &&
    (match rest.splitOn '>' with
     | [body, []] =>
       (match body.splitOn '@' with
        | [l, r] => id_atom_ok l && id_atom_ok r
        | _ => false)
     | _ => false)
  | [] => false

/-- Modelled from the spec: the unstructured grammar parser
(get_unstructured of the engine). It accepts any input as free text and
always succeeds; for the inputs of the modelled fragment its rendering is
the value itself and it records no defects of its own. -/
def get_unstructured (value : String) : ParseTree :=
  ParseTree.unstructured value []

/-- Modelled from the spec: the engine msg-id parser (parse_message_id).
On the known crash class it escapes with an IndexError; on a valid msg-id
it returns the genuine message-id token; on any other value the engine
catches its internal header-parse failure itself and returns an
invalid-message-id wrapper around the unstructured token, with a defect
recording the invalid msg-id. -/
def parse_message_id (value : String) : Except PyError ParseTree :=
  if msg_id_crashes value then
    .error .indexError
  else if valid_msg_id value then
    .ok (ParseTree.msgId value [])
  else
    .ok (ParseTree.invalidMsgId (get_unstructured value)
          [{ kind := "InvalidHeaderDefect", message := "Invalid msg-id" }])

/-- The modelled concrete grammar engine. -/
def stdlib_engine : GrammarEngine :=
  { get_unstructured := get_unstructured, parse_message_id := parse_message_id }

/-- A test engine whose msg-id parser fails with an exception class other
than IndexError, exercising the propagation path of the resilient
parser. -/
def faulty_engine : GrammarEngine :=
  { get_unstructured := get_unstructured,
    parse_message_id := fun _ => .error (.other "AttributeError" "boom") }

/-- Construction with the unstructured parser class always succeeds, and
the resulting data is determined by the unstructured token of the engine:
the unstructured grammar accepts any input. -/
theorem unstructured_new_eq (engine : GrammarEngine) (name value : String) :
    BaseHeader.new UnstructuredHeader.parse engine name value =
      .ok { name := name,
            decoded :=
              if _has_surrogates (engine.get_unstructured value).render
              then _sanitize (engine.get_unstructured value).render
              else (engine.get_unstructured value).render,
            parse_tree := engine.get_unstructured value,
            defects := [] } := rfl

/-- C1: for the malformed Message-ID value consisting of a less-than
sign, the letter a, an opening parenthesis and the letter b, which makes
the grammar engine crash, construction through the Relay registry does
not raise; the parse tree of the returned instance is the fallback
invalid-message-id variant wrapping the unstructured token; the defect
list contains the crash-fallback defect and every defect of the
unstructured parse; and the decoded string is non-empty and equals the
unstructured decoding of the value. -/
theorem construct_malformed_message_id_falls_back :
    ∃ inst : HeaderInstance,
      RelayHeaderRegistry.call stdlib_engine relay_header_factory "message-id" "<a(b" =
        .ok inst ∧
      inst.parse_tree.token_type = "invalid-message-id" ∧
      inst.parse_tree =
        ParseTree.invalidMsgId (stdlib_engine.get_unstructured "<a(b")
          [crash_fallback_defect "<a(b"] ∧
      crash_fallback_defect "<a(b" ∈ inst.defects ∧
      (∀ d ∈ (stdlib_engine.get_unstructured "<a(b").all_defects, d ∈ inst.defects) ∧
      inst.decoded ≠ "" ∧
      inst.decoded = (stdlib_engine.get_unstructured "<a(b").render := by
  refine ⟨{ toBaseHeaderData :=
              { name := "message-id", decoded := "<a(b",
                parse_tree := ParseTree.invalidMsgId (ParseTree.unstructured "<a(b" [])
                  [crash_fallback_defect "<a(b"],
                defects := [crash_fallback_defect "<a(b"] },
            as_unstructured :=
              { name := "message-id", decoded := "<a(b",
                parse_tree := ParseTree.unstructured "<a(b" [],
                defects := [] } }, ?_, ?_, ?_, ?_, ?_, ?_, ?_⟩ <;> first | rfl | decide

/-- C2: for every engine, registry state, header name and raw value, the
instance returned by the registry call carries an unstructured view, and
that view is exactly the result of independently constructing a header
for the same value with the unstructured parser; in particular the
decoded strings agree. -/
theorem construct_attaches_unstructured_view (engine : GrammarEngine)
    (r : HeaderRegistry) (name value : String) (inst : HeaderInstance)
    (h : RelayHeaderRegistry.call engine r name value = .ok inst) :
    ∃ u : BaseHeaderData,
      BaseHeader.new UnstructuredHeader.parse engine name value = .ok u ∧
      inst.as_unstructured = u ∧
      inst.as_unstructured.decoded = u.decoded := by
  cases hp : PythonHeaderRegistry.call engine r name value with
  | error e =>
    simp [RelayHeaderRegistry.call, hp] at h
  | ok hi =>
    simp [RelayHeaderRegistry.call, hp, unstructured_new_eq] at h
    exact ⟨inst.as_unstructured, by rw [unstructured_new_eq, ← h], rfl, rfl⟩

/-- C2 witness: a concrete construction through the Relay registry whose
view agrees with the independent unstructured parse. -/
theorem construct_attaches_unstructured_view_witness :
    ∃ u : BaseHeaderData,
      BaseHeader.new UnstructuredHeader.parse stdlib_engine "subject" "hello" = .ok u ∧
      ({ toBaseHeaderData :=
           { name := "subject", decoded := "hello",
             parse_tree := ParseTree.unstructured "hello" [], defects := [] },
         as_unstructured :=
           { name := "subject", decoded := "hello",
             parse_tree := ParseTree.unstructured "hello" [], defects := [] } } :
         HeaderInstance).as_unstructured = u ∧
      ({ toBaseHeaderData :=
           { name := "subject", decoded := "hello",
             parse_tree := ParseTree.unstructured "hello" [], defects := [] },
         as_unstructured :=
           { name := "subject", decoded := "hello",
             parse_tree := ParseTree.unstructured "hello" [], defects := [] } } :
         HeaderInstance).as_unstructured.decoded = u.decoded :=
  construct_attaches_unstructured_view stdlib_engine relay_header_factory
    "subject" "hello" _ rfl

/-- C3: the resilient Message-ID parser recovers only from the IndexError
crash class: when the engine msg-id parser fails with IndexError the
parse succeeds with a fallback result, and when it fails with any other
exception class that exception propagates unchanged to the caller. -/
theorem relay_parse_error_propagation (engine : GrammarEngine) (value : String)
    (kwds : Kwds) (e : PyError) (h : engine.parse_message_id value = .error e) :
    (e = PyError.indexError →
      ∃ k, RelayMessageIDHeader.parse engine value kwds = .ok k) ∧
    (e ≠ PyError.indexError →
      RelayMessageIDHeader.parse engine value kwds = .error e) := by
  constructor
  · rintro rfl
    refine ⟨{ kwds with
        parse_tree := some (ParseTree.invalidMsgId (engine.get_unstructured value)
          [crash_fallback_defect value]),
        decoded := some (ParseTree.invalidMsgId (engine.get_unstructured value)
          [crash_fallback_defect value]).render,
        defects := kwds.defects ++ (ParseTree.invalidMsgId (engine.get_unstructured value)
          [crash_fallback_defect value]).all_defects }, ?_⟩
    simp [RelayMessageIDHeader.parse, h]
  · intro hne
    cases e with
    | indexError => exact absurd rfl hne
    | other n m => simp [RelayMessageIDHeader.parse, h]

/-- C3 witness: an engine failing with an AttributeError is not recovered
and the error propagates. -/
theorem relay_parse_error_propagation_witness :
    (PyError.other "AttributeError" "boom" = PyError.indexError →
      ∃ k, RelayMessageIDHeader.parse faulty_engine "x"
        { parse_tree := none, decoded := none, defects := [] } = .ok k) ∧
    (PyError.other "AttributeError" "boom" ≠ PyError.indexError →
      RelayMessageIDHeader.parse faulty_engine "x"
        { parse_tree := none, decoded := none, defects := [] } =
        .error (PyError.other "AttributeError" "boom")) :=
  relay_parse_error_propagation faulty_engine "x"
    { parse_tree := none, decoded := none, defects := [] }
    (PyError.other "AttributeError" "boom") rfl

/-- C4: for the syntactically valid Message-ID value consisting of the
bracketed address abc123 at example.com, construction through the Relay
registry adopts the genuine message-id tree returned by the grammar
engine verbatim, the tree is not the fallback invalid-message-id variant,
and the defect list holds no crash-fallback defect. -/
theorem construct_wellformed_message_id_passthrough :
    ∃ inst : HeaderInstance,
      RelayHeaderRegistry.call stdlib_engine relay_header_factory "message-id"
        "<abc123@example.com>" = .ok inst ∧
      stdlib_engine.parse_message_id "<abc123@example.com>" = .ok inst.parse_tree ∧
      inst.parse_tree.token_type = "message-id" ∧
      inst.parse_tree.token_type ≠ "invalid-message-id" ∧
      crash_fallback_defect "<abc123@example.com>" ∉ inst.defects := by
  refine ⟨{ toBaseHeaderData :=
              { name := "message-id", decoded := "<abc123@example.com>",
                parse_tree := ParseTree.msgId "<abc123@example.com>" [],
                defects := [] },
            as_unstructured :=
              { name := "message-id", decoded := "<abc123@example.com>",
                parse_tree := ParseTree.unstructured "<abc123@example.com>" [],
                defects := [] } }, ?_, ?_, ?_, ?_, ?_⟩ <;> first | rfl | decide

/-- C5: whenever the resilient Message-ID parse returns, on the success
path and on the fallback path alike, the decoded field is the string
rendering of the tree that was produced, and the defect list of the
accumulator is extended with every defect accumulated in that tree; on
the fallback path the tree is the invalid-message-id wrapper and carries
the crash-fallback defect among its defects. -/
theorem relay_parse_postcondition (engine : GrammarEngine) (value : String)
    (kwds k : Kwds) (h : RelayMessageIDHeader.parse engine value kwds = .ok k) :
    ∃ t : ParseTree,
      k.parse_tree = some t ∧
      k.decoded = some t.render ∧
      k.defects = kwds.defects ++ t.all_defects ∧
      (engine.parse_message_id value = .ok t ∨
        (engine.parse_message_id value = .error PyError.indexError ∧
         t = ParseTree.invalidMsgId (engine.get_unstructured value)
               [crash_fallback_defect value] ∧
         crash_fallback_defect value ∈ t.all_defects)) := by
  cases hp : engine.parse_message_id value with
  | ok t =>
    simp [RelayMessageIDHeader.parse, hp] at h
    exact ⟨t, by rw [← h], by rw [← h], by rw [← h], Or.inl rfl⟩
  | error e =>
    cases e with
    | indexError =>
      simp [RelayMessageIDHeader.parse, hp] at h
      refine ⟨ParseTree.invalidMsgId (engine.get_unstructured value)
        [crash_fallback_defect value], by rw [← h], by rw [← h], by rw [← h],
        Or.inr ⟨rfl, rfl, ?_⟩⟩
      simp [ParseTree.all_defects]
    | other n m =>
      simp [RelayMessageIDHeader.parse, hp] at h

/-- C5 witness: the postcondition at the crashing value through the
modelled engine. -/
theorem relay_parse_postcondition_witness :
    ∃ t : ParseTree,
      (({ parse_tree := some (ParseTree.invalidMsgId (ParseTree.unstructured "<a(b" [])
            [crash_fallback_defect "<a(b"]),
          decoded := some "<a(b",
          defects := [crash_fallback_defect "<a(b"] } : Kwds)).parse_tree = some t ∧
      (({ parse_tree := some (ParseTree.invalidMsgId (ParseTree.unstructured "<a(b" [])
            [crash_fallback_defect "<a(b"]),
          decoded := some "<a(b",
          defects := [crash_fallback_defect "<a(b"] } : Kwds)).decoded = some t.render ∧
      (({ parse_tree := some (ParseTree.invalidMsgId (ParseTree.unstructured "<a(b" [])
            [crash_fallback_defect "<a(b"]),
          decoded := some "<a(b",
          defects := [crash_fallback_defect "<a(b"] } : Kwds)).defects =
        ({ parse_tree := none, decoded := none, defects := [] } : Kwds).defects ++
          t.all_defects ∧
      (stdlib_engine.parse_message_id "<a(b" = .ok t ∨
        (stdlib_engine.parse_message_id "<a(b" = .error PyError.indexError ∧
         t = ParseTree.invalidMsgId (stdlib_engine.get_unstructured "<a(b")
               [crash_fallback_defect "<a(b"] ∧
         crash_fallback_defect "<a(b" ∈ t.all_defects)) :=
  relay_parse_postcondition stdlib_engine "<a(b"
    { parse_tree := none, decoded := none, defects := [] } _ rfl

/-- C6: if the parse of the resolved class fails with a fatal error then
the whole Relay registry call fails with that error and no instance is
returned, while the independent unstructured parse of the view is total
and can never be the source of such a failure. -/
theorem construct_fatal_error_no_instance (engine : GrammarEngine)
    (r : HeaderRegistry) (name value : String) :
    (∀ e : PyError, PythonHeaderRegistry.call engine r name value = .error e →
      RelayHeaderRegistry.call engine r name value = .error e) ∧
    (∃ u : BaseHeaderData,
      BaseHeader.new UnstructuredHeader.parse engine name value = .ok u) := by
  constructor
  · intro e he
    simp [RelayHeaderRegistry.call, he]
  · exact ⟨_, unstructured_new_eq engine name value⟩

/-- C6 witness: with an engine whose msg-id parser fails fatally, the
Relay registry call for a Message-ID header fails with that error, yet
the unstructured parse of the same value still succeeds. -/
theorem construct_fatal_error_no_instance_witness :
    RelayHeaderRegistry.call faulty_engine relay_header_factory "message-id" "<x@y>" =
      .error (PyError.other "AttributeError" "boom") ∧
    ∃ u : BaseHeaderData,
      BaseHeader.new UnstructuredHeader.parse faulty_engine "message-id" "<x@y>" = .ok u :=
  ⟨(construct_fatal_error_no_instance faulty_engine relay_header_factory
      "message-id" "<x@y>").1 (PyError.other "AttributeError" "boom") rfl,
   (construct_fatal_error_no_instance faulty_engine relay_header_factory
      "message-id" "<x@y>").2⟩

/-- C7: resolution of a header name is case-insensitive and
override-based: after registering a class for a name, lookup of any
casing of that name yields the registered class (the latest registration
wins), and lookup of a name registered nowhere yields the default
unstructured class of the registry. -/
theorem registry_resolution_override :
    (∀ (r : HeaderRegistry) (name : String) (cls : ParserClass) (name2 : String),
      str_lower name2 = str_lower name →
      (r.map_to_type name cls).getitem name2 = cls) ∧
    (∀ (r : HeaderRegistry) (name2 : String),
      (∀ key ∈ r.registry.map Prod.fst, key ≠ str_lower name2) →
      r.getitem name2 = r.default_class) := by
  constructor
  · intro r name cls name2 h
    simp [HeaderRegistry.map_to_type, HeaderRegistry.getitem, List.find?, h]
  · intro r name2 h
    have hnone : r.registry.find? (fun p => p.1 == str_lower name2) = none := by
      rw [List.find?_eq_none]
      intro p hp
      simpa using h p.1 (List.mem_map_of_mem Prod.fst hp)
    simp [HeaderRegistry.getitem, hnone]

/-- C7 witness: registering a class for a mixed-case name resolves a
lowercase lookup to it, and a name absent from the module registry
resolves to the default unstructured class. -/
theorem registry_resolution_override_witness :
    (relay_header_factory.map_to_type "X-Custom" MessageIDHeader.parse).getitem
      "x-custom" = MessageIDHeader.parse ∧
    relay_header_factory.getitem "x-unknown" = relay_header_factory.default_class :=
  ⟨registry_resolution_override.1 relay_header_factory "X-Custom"
      MessageIDHeader.parse "x-custom" rfl,
   registry_resolution_override.2 relay_header_factory "x-unknown" (by decide)⟩

/-- C8: for a header name whose resolved parser class is the unstructured
parser itself, the primary decoded string of the constructed instance
equals the decoded string of its unstructured view. -/
theorem unstructured_primary_equals_view (engine : GrammarEngine)
    (r : HeaderRegistry) (name value : String) (inst : HeaderInstance)
    (hcls : r.getitem name = UnstructuredHeader.parse)
    (h : RelayHeaderRegistry.call engine r name value = .ok inst) :
    inst.decoded = inst.as_unstructured.decoded := by
  simp only [RelayHeaderRegistry.call, PythonHeaderRegistry.call, hcls,
    unstructured_new_eq] at h
  cases h
  rfl

/-- C8 witness: the subject header resolves to the unstructured class and
the two decoded strings coincide on a concrete value. -/
theorem unstructured_primary_equals_view_witness :
    ({ toBaseHeaderData :=
         { name := "subject", decoded := "hi", 
           parse_tree := ParseTree.unstructured "hi" [], defects := [] },
       as_unstructured :=
         { name := "subject", decoded := "hi",
           parse_tree := ParseTree.unstructured "hi" [], defects := [] } } :
       HeaderInstance).decoded =
    ({ toBaseHeaderData :=
         { name := "subject", decoded := "hi",
           parse_tree := ParseTree.unstructured "hi" [], defects := [] },
       as_unstructured :=
         { name := "subject", decoded := "hi",
           parse_tree := ParseTree.unstructured "hi" [], defects := [] } } :
       HeaderInstance).as_unstructured.decoded :=
  unstructured_primary_equals_view stdlib_engine relay_header_factory
    "subject" "hi" _ rfl rfl

/-- C9: two calls of the Relay registry with the same engine, the same
registration state and an identical name and value pair return instances
with equal decoded strings, equal defect lists and equal view decoded
strings: construction is a function of its inputs, with no hidden
mutable state. -/
theorem construct_deterministic (engine : GrammarEngine) (r : HeaderRegistry)
    (name value : String) (inst1 inst2 : HeaderInstance)
    (h1 : RelayHeaderRegistry.call engine r name value = .ok inst1)
    (h2 : RelayHeaderRegistry.call engine r name value = .ok inst2) :
    inst1.decoded = inst2.decoded ∧
    inst1.defects = inst2.defects ∧
    inst1.as_unstructured.decoded = inst2.as_unstructured.decoded := by
  have heq : inst1 = inst2 := Except.ok.inj (h1.symm.trans h2)
  subst heq
  exact ⟨rfl, rfl, rfl⟩

/-- C9 witness: two identical concrete calls agree on decoded strings,
defect lists and view decoded strings. -/
theorem construct_deterministic_witness :
    ({ toBaseHeaderData :=
         { name := "message-id", decoded := "<a(b",
           parse_tree := ParseTree.invalidMsgId (ParseTree.unstructured "<a(b" [])
             [crash_fallback_defect "<a(b"],
           defects := [crash_fallback_defect "<a(b"] },
       as_unstructured :=
         { name := "message-id", decoded := "<a(b",
           parse_tree := ParseTree.unstructured "<a(b" [], defects := [] } } :
       HeaderInstance).decoded =
    ({ toBaseHeaderData :=
         { name := "message-id", decoded := "<a(b",
           parse_tree := ParseTree.invalidMsgId (ParseTree.unstructured "<a(b" [])
             [crash_fallback_defect "<a(b"],
           defects := [crash_fallback_defect "<a(b"] },
       as_unstructured :=
         { name := "message-id", decoded := "<a(b",
           parse_tree := ParseTree.unstructured "<a(b" [], defects := [] } } :
       HeaderInstance).decoded ∧
    ({ toBaseHeaderData :=
         { name := "message-id", decoded := "<a(b",
           parse_tree := ParseTree.invalidMsgId (ParseTree.unstructured "<a(b" [])
             [crash_fallback_defect "<a(b"],
           defects := [crash_fallback_defect "<a(b"] },
       as_unstructured :=
         { name := "message-id", decoded := "<a(b",
           parse_tree := ParseTree.unstructured "<a(b" [], defects := [] } } :
       HeaderInstance).defects =
    ({ toBaseHeaderData :=
         { name := "message-id", decoded := "<a(b",
           parse_tree := ParseTree.invalidMsgId (ParseTree.unstructured "<a(b" [])
             [crash_fallback_defect "<a(b"],
           defects := [crash_fallback_defect "<a(b"] },
       as_unstructured :=
         { name := "message-id", decoded := "<a(b",
           parse_tree := ParseTree.unstructured "<a(b" [], defects := [] } } :
       HeaderInstance).defects ∧
    ({ toBaseHeaderData :=
         { name := "message-id", decoded := "<a(b",
           parse_tree := ParseTree.invalidMsgId (ParseTree.unstructured "<a(b" [])
             [crash_fallback_defect "<a(b"],
           defects := [crash_fallback_defect "<a(b"] },
       as_unstructured :=
         { name := "message-id", decoded := "<a(b",
           parse_tree := ParseTree.unstructured "<a(b" [], defects := [] } } :
       HeaderInstance).as_unstructured.decoded =
    ({ toBaseHeaderData :=
         { name := "message-id", decoded := "<a(b",
           parse_tree := ParseTree.invalidMsgId (ParseTree.unstructured "<a(b" [])
             [crash_fallback_defect "<a(b"],
           defects := [crash_fallback_defect "<a(b"] },
       as_unstructured :=
         { name := "message-id", decoded := "<a(b",
           parse_tree := ParseTree.unstructured "<a(b" [], defects := [] } } :
       HeaderInstance).as_unstructured.decoded :=
  construct_deterministic stdlib_engine relay_header_factory "message-id" "<a(b"
    _ _ rfl rfl

/-- C10: whenever the fallback path of the resilient Message-ID parser is
taken, the invalid-message-id node carries exactly one appended defect,
the crash-fallback defect, whose message is exactly the text IndexError
for invalid msg-id in, followed by the raw value verbatim between single
quotes; the accumulator defect list gains that defect followed by the
defects of the unstructured token. -/
theorem fallback_defect_exact_message (engine : GrammarEngine) (value : String)
    (kwds k : Kwds)
    (hcrash : engine.parse_message_id value = .error PyError.indexError)
    (h : RelayMessageIDHeader.parse engine value kwds = .ok k) :
    k.parse_tree = some (ParseTree.invalidMsgId (engine.get_unstructured value)
        [crash_fallback_defect value]) ∧
    (crash_fallback_defect value).message =
      "IndexError for invalid msg-id in " ++ singleQuote ++ value ++ singleQuote ∧
    k.defects = kwds.defects ++
      crash_fallback_defect value :: (engine.get_unstructured value).all_defects := by
  simp only [RelayMessageIDHeader.parse, hcrash] at h
  cases h
  exact ⟨rfl, rfl, rfl⟩

/-- C10 witness: the exact defect at the concrete crashing value through
the modelled engine. -/
theorem fallback_defect_exact_message_witness :
    ({ parse_tree := some (ParseTree.invalidMsgId (ParseTree.unstructured "<a(b" [])
         [crash_fallback_defect "<a(b"]),
       decoded := some "<a(b",
       defects := [crash_fallback_defect "<a(b"] } : Kwds).parse_tree =
      some (ParseTree.invalidMsgId (stdlib_engine.get_unstructured "<a(b")
        [crash_fallback_defect "<a(b"]) ∧
    (crash_fallback_defect "<a(b").message =
      "IndexError for invalid msg-id in " ++ singleQuote ++ "<a(b" ++ singleQuote ∧
    ({ parse_tree := some (ParseTree.invalidMsgId (ParseTree.unstructured "<a(b" [])
         [crash_fallback_defect "<a(b"]),
       decoded := some "<a(b",
       defects := [crash_fallback_defect "<a(b"] } : Kwds).defects =
      ({ parse_tree := none, decoded := none, defects := [] } : Kwds).defects ++
        crash_fallback_defect "<a(b" ::
          (stdlib_engine.get_unstructured "<a(b").all_defects :=
  fallback_defect_exact_message stdlib_engine "<a(b"
    { parse_tree := none, decoded := none, defects := [] } _ rfl rfl
